import Mathlib

/-!
Verification development for the csv-data-insights server logic
(`src/server/routers.ts` and its extended variant with the export and
JSON-schema cleaning endpoints).  The TypeScript helpers are embedded
shallowly: strings are Lean `String`s, JS numbers are exact rationals
except where a rounding step of binary64 arithmetic is observable, in
which case that single rounding is modelled exactly (see `jsMul07`).
JS array indices and lengths are `Nat`; a JS array length is below
2 ^ 32, so index computations such as `Math.floor(n * 0.25)` are exact
in binary64 and are modelled directly with natural-number division.
-/

namespace CsvInsights

/-- Whitespace as relevant to `String.prototype.trim` for the ASCII
inputs this code handles (space, tab, newline, carriage return). -/
def isJsWs (c : Char) : Bool :=
  c = ' ' || c = '\t' || c = '\n' || c = '\r'

/-- Model of `s.trim()`: drop leading and trailing whitespace. -/
def jsTrim (s : String) : String :=
  ⟨(((s.data.dropWhile isJsWs).reverse.dropWhile isJsWs).reverse)⟩

/-- Split a character list on a separator, JS style: splitting the empty
list yields one empty piece, and `n` separators yield `n + 1` pieces. -/
def splitOnCharList (sep : Char) : List Char → List (List Char)
  | [] => [[]]
  | c :: cs =>
    if c = sep then [] :: splitOnCharList sep cs
    else
      match splitOnCharList sep cs with
      | [] => [[c]]
      | g :: gs => (c :: g) :: gs

/-- Model of `s.split(sep)` for a one-character separator. -/
def jsSplit (sep : Char) (s : String) : List String :=
  (splitOnCharList sep s.data).map (fun l => ⟨l⟩)

/-- Join strings with a one-character separator (used to state facts
about texts of the form `header + "\n" + row1 + "\n" + ...`). -/
def joinChar (sep : Char) (pieces : List String) : String :=
  ⟨List.intercalate [sep] (pieces.map String.data)⟩

/-- Digit-string accumulator: value and digit count of a run of ASCII
digits at the front of the character list, together with the rest. -/
def takeDigits : List Char → ℕ × ℕ × List Char
  | [] => (0, 0, [])
  | c :: cs =>
    if c.isDigit then
      let (v, n, rest) := takeDigits cs
      ((c.toNat - '0'.toNat) * 10 ^ n + v, n + 1, rest)
    else (0, 0, c :: cs)

/-- Model of the JS `parseFloat` builtin on the decimal literals this
code ever feeds it: skip leading whitespace, optional sign, a run of
digits with an optional fractional part, and an optional exponent;
trailing garbage is ignored (longest valid prefix), and the result is
`none` exactly when no mantissa digit is present (`NaN` in JS).  The
`"Infinity"` literal (which real `parseFloat` maps to a non-NaN
infinity) is outside this finite-value model. -/
def jsParseFloat (s : String) : Option ℚ :=
  let l := s.data.dropWhile isJsWs
  let (sgn, l1) : ℚ × List Char :=
    match l with
    | '-' :: rest => (-1, rest)
    | '+' :: rest => (1, rest)
    | rest => (1, rest)
  let (ip, ic, l2) := takeDigits l1
  let (fp, fc, l3) :=
    match l2 with
    | '.' :: rest => takeDigits rest
    | rest => (0, 0, rest)
  if ic + fc = 0 then none
  else
    let (ep, ec, esgn) : ℕ × ℕ × Bool :=
      match l3 with
      | 'e' :: '-' :: rest => let (v, n, _) := takeDigits rest; (v, n, true)
      | 'e' :: '+' :: rest => let (v, n, _) := takeDigits rest; (v, n, false)
      | 'e' :: rest => let (v, n, _) := takeDigits rest; (v, n, false)
      | 'E' :: '-' :: rest => let (v, n, _) := takeDigits rest; (v, n, true)
      | 'E' :: '+' :: rest => let (v, n, _) := takeDigits rest; (v, n, false)
      | 'E' :: rest => let (v, n, _) := takeDigits rest; (v, n, false)
      | _ => (0, 0, false)
    let mantissa : ℚ := (ip : ℚ) + (fp : ℚ) / 10 ^ fc
    let exponent : ℚ := if ec = 0 then 1 else if esgn then 1 / 10 ^ ep else (10 : ℚ) ^ ep
    some (sgn * mantissa * exponent)

/-- Numerator of the binary64 value nearest `0.7`: the double constant
`0.7` in the source is exactly `float07Num / 2 ^ 52`. -/
def float07Num : ℕ := 3152519739159347

/-- Exact value of the binary64 product `n * 0.7` as JS computes it in
`values.length * 0.7`: the exact rational `n * (float07Num / 2 ^ 52)`
rounded to 53 significant bits, ties to even.  (`n` is a JS array
length, so far below the binary64 overflow threshold.) -/
def jsMul07 (n : ℕ) : ℚ :=
  if n = 0 then 0
  else
    let P := n * float07Num
    let L := Nat.log2 P + 1
    if L ≤ 53 then (P : ℚ) / 2 ^ 52
    else
      let s := L - 53
      let q := P / 2 ^ s
      let r := P % 2 ^ s
      let q' := if 2 * r > 2 ^ s ∨ (2 * r = 2 ^ s ∧ q % 2 = 1) then q + 1 else q
      ((q' * 2 ^ s : ℕ) : ℚ) / 2 ^ 52

/-- Result record of `calculateStatistics`.  The source also returns
`stdDev = Math.sqrt(variance)`, which is irrational in general and is
not referenced by any claim; the remaining fields are exact here. -/
structure Statistics where
  mean : ℚ
  median : ℚ
  variance : ℚ
  min : ℚ
  max : ℚ
  q1 : ℚ
  q3 : ℚ
  iqr : ℚ
  deriving Repr

/-- Model of `Math.min(...values)` on a nonempty array (the empty case,
`Infinity` in JS, is never reached by the guarded callers). -/
def jsMin : List ℚ → ℚ
  | [] => 0
  | x :: xs => xs.foldl min x

/-- Model of `Math.max(...values)` on a nonempty array. -/
def jsMax : List ℚ → ℚ
  | [] => 0
  | x :: xs => xs.foldl max x

/-- Embedding of `calculateStatistics` (routers.ts lines 11-24): sort a
copy ascending, take mean, the middle element at `floor(n/2)`,
population variance, min/max, and quartiles at `floor(n*0.25)` and
`floor(n*0.75)`.  The index products by `0.25`, `0.5`, `0.75` are exact
in binary64 for any JS array length, so they are `Nat` divisions here. -/
def calculateStatistics (values : List ℚ) : Statistics :=
  let sorted := values.mergeSort
  let mean := values.foldl (· + ·) 0 / (values.length : ℚ)
  let q1 := sorted.getD (sorted.length / 4) 0
  let q3 := sorted.getD (3 * sorted.length / 4) 0
  { mean := mean
    median := sorted.getD (sorted.length / 2) 0
    variance := (values.foldl (fun sum val => sum + (val - mean) ^ 2) 0) / (values.length : ℚ)
    min := jsMin values
    max := jsMax values
    q1 := q1
    q3 := q3
    iqr := q3 - q1 }

/-- The present values of column `colIdx`: the cells
`rows.map(r => r[colIdx]).filter(v => v && v.trim())` — positions past
the end of a ragged row are `undefined` and hence dropped, as are empty
and whitespace-only cells. -/
def presentValues (rows : List (List String)) (colIdx : ℕ) : List String :=
  rows.filterMap (fun r =>
    match r.get? colIdx with
    | some v => if v ≠ "" ∧ jsTrim v ≠ "" then some v else none
    | none => none)

/-- The numeric values of a column:
`values.map(v => parseFloat(v)).filter(v => !isNaN(v))`. -/
def numericValuesOf (values : List String) : List ℚ :=
  values.filterMap jsParseFloat

/-- One per-column record produced by `analyzeDataStructure`.
`missingPercent` is the exact ratio; the source renders it with
`toFixed(2)`. -/
structure ColumnInfo where
  name : String
  type : String
  uniqueCount : ℕ
  missingCount : ℕ
  missingPercent : ℚ
  statistics : Option Statistics
  deriving Repr

/-- Placeholder column used as the default of out-of-range list reads
in theorem statements (never the value actually read). -/
def defaultColumn : ColumnInfo :=
  { name := "", type := "", uniqueCount := 0, missingCount := 0
    missingPercent := 0, statistics := none }

/-- Embedding of one iteration of the column loop of
`analyzeDataStructure` (routers.ts lines 34-51): classify the column as
numeric when `numericValues.length > values.length * 0.7` — the
right-hand side being the binary64 product `jsMul07` — and attach
statistics to numeric columns with at least one numeric value. -/
def analyzeColumn (rows : List (List String)) (totalRows : ℕ)
    (name : String) (colIdx : ℕ) : ColumnInfo :=
  let values := presentValues rows colIdx
  let numericValues := numericValuesOf values
  let colType : String :=
    if (numericValues.length : ℚ) > jsMul07 values.length then "numeric"
    else "categorical"
  { name := name
    type := colType
    uniqueCount := values.dedup.length
    missingCount := totalRows - values.length
    missingPercent := ((totalRows - values.length : ℕ) : ℚ) / totalRows * 100
    statistics :=
      if colType = "numeric" ∧ 0 < numericValues.length then
        some (calculateStatistics numericValues)
      else none }

/-- The aggregate analysis record. -/
structure Analysis where
  totalRows : ℕ
  totalColumns : ℕ
  columns : List ColumnInfo
  deriving Repr

/-- Embedding of `analyzeDataStructure` (routers.ts lines 27-55). -/
def analyzeDataStructure (headers : List String) (rows : List (List String)) :
    Analysis :=
  { totalRows := rows.length
    totalColumns := headers.length
    columns := headers.enum.map (fun p => analyzeColumn rows rows.length p.2 p.1) }

/-- `input.csvContent.trim().split('\n')` — the line split shared by
`insights.generate`, `cleaning.clean` and `cleaning.exportAsDataset`. -/
def parseLines (csvContent : String) : List String :=
  jsSplit '\n' (jsTrim csvContent)

/-- `lines.slice(1).map(line => line.split(',').map(cell => cell.trim()))`
— the data rows as parsed by `insights.generate`. -/
def parseRows (lines : List String) : List (List String) :=
  (lines.drop 1).map (fun line => (jsSplit ',' line).map jsTrim)

/-- The data-row count every parsing site derives:
`lines.length - 1` over the trimmed, newline-split text. -/
def rowCountOf (csvContent : String) : ℕ :=
  (parseLines csvContent).length - 1

/-- `lines[0].split(',').map(h => h.trim())` — the header list parsed
from the first line (`parseLines` never returns an empty list). -/
def headersOf (csvContent : String) : List String :=
  (jsSplit ',' ((parseLines csvContent).getD 0 "")).map jsTrim

/-- JSON values as produced by a successful `JSON.parse`. -/
inductive Json where
  | null
  | bool (b : Bool)
  | num (q : ℚ)
  | str (s : String)
  | arr (elems : List Json)
  | obj (fields : List (String × Json))

/-- JS falsiness of a parsed JSON value (`undefined` is represented by
a missing lookup, not by a `Json` constructor). -/
def Json.falsy : Json → Bool
  | .null => true
  | .bool b => !b
  | .num q => decide (q = 0)
  | .str s => s = ""
  | .arr _ => false
  | .obj _ => false

/-- JS property read `j[key]` on a parsed JSON value (objects parsed by
`JSON.parse` have distinct keys); reading a property of a non-object
primitive yields `undefined`, i.e. `none`. -/
def Json.lookup (j : Json) (key : String) : Option Json :=
  match j with
  | .obj fields => fields.lookup key
  | _ => none

/-- The LLM response content as the handlers case on it: absent or
empty (falsy) content, content `JSON.parse` rejects, or content parsed
to a JSON value.  The external call itself is the abstracted boundary. -/
inductive LlmContent where
  | empty
  | invalid
  | parsed (j : Json)

/-- Extraction step of `insights.generate`:
`const insights = parsed.insights || []` followed by iterating the
result.  Property access on JSON `null` throws (caught by the handler's
generic catch), a missing or falsy field falls back to the empty array,
and iterating a truthy non-array throws likewise.  (A truthy string
would iterate per character in JS; no claim reaches that corner.) -/
def insightsArr (parsed : Json) : Except String (List Json)  :=
  match parsed with
  | .null => .error "Failed to generate insights"
  | j =>
    match j.lookup "insights" with
    | none => .ok []
    | some v =>
      if v.falsy then .ok []
      else
        match v with
        | .arr elems => .ok elems
        | _ => .error "Failed to generate insights"

/-- Embedding of the `insights.generate` mutation after the dataset's
prior insights were deleted (the delete is the first statement of the
`try` block, so it precedes every failure below).  The first component
is the list of Insight rows stored for the dataset when the handler
finishes — one row per array element — and the second is the outcome:
the success payload count or the thrown error's message
(`TRPCError 'Failed to generate insights'` for any exception). -/
def insightsGenerate (resp : LlmContent) : List Json × Except String ℕ :=
  match resp with
  | .empty => ([], .error "Failed to generate insights")
  | .invalid => ([], .error "Failed to generate insights")
  | .parsed j =>
    match insightsArr j with
    | .error e => ([], .error e)
    | .ok elems => (elems, .ok elems.length)

/-- Quote-aware cell split used by `cleaning.clean` (part_001 lines
331-349): a double quote toggles the in-quotes flag and is dropped, a
comma outside quotes ends the cell, and every cell is trimmed. -/
def parseQuotedLine (line : String) : List String :=
  let step : (List String × List Char × Bool) → Char → (List String × List Char × Bool) :=
    fun (cells, current, inQuotes) c =>
      if c = '"' then (cells, current, !inQuotes)
      else if c = ',' ∧ ¬inQuotes then (cells ++ [jsTrim ⟨current.reverse⟩], [], inQuotes)
      else (cells, c :: current, inQuotes)
  let (cells, current, _) := line.data.foldl step ([], [], false)
  cells ++ [jsTrim ⟨current.reverse⟩]

/-- The data rows as `cleaning.clean` parses them (quote-aware). -/
def cleanRows (csvContent : String) : List (List String) :=
  ((parseLines csvContent).drop 1).map parseQuotedLine

/-- Model of `s.toLowerCase()` (character-wise lowering). -/
def jsToLower (s : String) : String :=
  ⟨s.data.map Char.toLower⟩

/-- Is a cell counted as empty by the cleaning pre-scan
(`!cell || cell.trim() === '' || lower is null/na/n/a`)? -/
def isEmptyCell (cell : String) : Bool :=
  cell = "" || jsTrim cell = "" || jsToLower cell = "null" ||
    jsToLower cell = "na" || jsToLower cell = "n/a"

/-- The quick statistics `cleaning.clean` precomputes and stores in the
report as `originalStats` (`inconsistentFormats` stays empty). -/
structure DataAnalysisStats where
  totalRows : ℕ
  totalColumns : ℕ
  emptyValues : ℕ
  duplicateRows : ℕ
  deriving Repr, DecidableEq

/-- `dataAnalysis` of `cleaning.clean`: row/column counts, the count of
empty-ish cells, and duplicate rows measured by exact equality of the
`'|'`-joined row strings. -/
def cleaningDataAnalysis (headers : List String) (rows : List (List String)) :
    DataAnalysisStats :=
  { totalRows := rows.length
    totalColumns := headers.length
    emptyValues := (rows.map (fun row => (row.filter isEmptyCell).length)).sum
    duplicateRows :=
      rows.length - (rows.map (fun r => joinChar '|' r)).dedup.length }

/-- The report persisted with a cleaning result; `timestamp` is the
caller-supplied clock reading (`new Date().toISOString()`). -/
structure CleaningReport where
  changes : Json
  summary : Json
  originalStats : DataAnalysisStats
  timestamp : String

/-- The row `db.createCleaningResult` stores. -/
structure StoredCleaningResult where
  originalCsv : String
  cleanedCsv : String
  report : CleaningReport

/-- Read an optional string-array field the way the handler uses it:
a missing or falsy field selects the fallback, a conforming array is
used as is, and a truthy non-conforming value makes the later
`.join(',')` / `.map(...)` call throw, which the generic catch turns
into the user-facing cleaning error. -/
def stringArrField (j : Json) (key : String) (fallback : List String) :
    Except String (List String) :=
  match j.lookup key with
  | none => .ok fallback
  | some v =>
    if v.falsy then .ok fallback
    else
      match v with
      | .arr elems =>
        match elems.mapM (fun e => match e with | .str s => some s | _ => none) with
        | some strs => .ok strs
        | none => .error "An error occurred during data cleaning."
      | _ => .error "An error occurred during data cleaning."

/-- As `stringArrField`, for the field `cleanedRows` of row arrays. -/
def rowArrField (j : Json) (key : String) (fallback : List (List String)) :
    Except String (List (List String)) :=
  match j.lookup key with
  | none => .ok fallback
  | some v =>
    if v.falsy then .ok fallback
    else
      match v with
      | .arr elems =>
        match elems.mapM (fun e =>
          match e with
          | .arr cells =>
            cells.mapM (fun c => match c with | .str s => some s | _ => none)
          | _ => none) with
        | some rows => .ok rows
        | none => .error "An error occurred during data cleaning."
      | _ => .error "An error occurred during data cleaning."

/-- A JSON field with the `|| default` fallback, kept verbatim. -/
def jsonFieldOr (j : Json) (key : String) (fallback : Json) : Json :=
  match j.lookup key with
  | none => fallback
  | some v => if v.falsy then fallback else v

/-- Embedding of the `cleaning.clean` mutation of the JSON-schema
variant (part_001 lines 326-545): parse the CSV, precompute
`dataAnalysis`, call the LLM, and handle its response.  Empty content
and JSON parse failure throw dedicated `TRPCError`s (re-thrown
unchanged by the catch); property access on JSON `null` throws a
`TypeError` mapped to the generic cleaning message; otherwise each of
the four top-level fields independently falls back to its default
(`input.headers`, the first 20 parsed rows, `[]`, and the zero-change
summary), the cleaned CSV is rebuilt by joining, and a CleaningResult
row is stored. -/
def cleaningClean (headers : List String) (csvContent : String)
    (resp : LlmContent) (now : String) : Except String StoredCleaningResult :=
  let rows := cleanRows csvContent
  match resp with
  | .empty => .error "Empty response from AI. Please try again later."
  | .invalid => .error "Failed to parse AI response. Please try again."
  | .parsed .null => .error "An error occurred during data cleaning."
  | .parsed j => do
    let cleanedHeaders ← stringArrField j "cleanedHeaders" headers
    let cleanedRows ← rowArrField j "cleanedRows" (rows.take 20)
    let cleanedCsv :=
      joinChar '\n' (joinChar ',' cleanedHeaders :: cleanedRows.map (joinChar ','))
    .ok { originalCsv := csvContent
          cleanedCsv := cleanedCsv
          report :=
            { changes := jsonFieldOr j "changes" (.arr [])
              summary := jsonFieldOr j "summary"
                (.obj [("totalChanges", .num 0), ("qualityScore", .num 100)])
              originalStats := cleaningDataAnalysis headers rows
              timestamp := now } }

/-- What `cleaning.exportAsDataset` both stores (via
`db.createCsvDataset`) and returns. -/
structure ExportOutcome where
  storedFileName : String
  storedHeaders : List String
  storedRowCount : ℕ
  returnedFileName : String
  returnedRowCount : ℕ
  deriving Repr, DecidableEq

/-- Embedding of `cleaning.exportAsDataset` (part_001 lines 551-596)
after the latest cleaning result and the original dataset were found:
re-parse the cleaned CSV's first line as headers, count the remaining
lines, derive the file name (`input.newFileName || 'cleaned_' + ...`,
so an absent or empty name falls back), store and return. -/
def exportAsDataset (cleanedCsv originalFileName : String)
    (newFileName : Option String) : ExportOutcome :=
  let lines := parseLines cleanedCsv
  let headers := (jsSplit ',' (lines.getD 0 "")).map jsTrim
  let rowCount := lines.length - 1
  let name :=
    match newFileName with
    | none => "cleaned_" ++ originalFileName
    | some s => if s = "" then "cleaned_" ++ originalFileName else s
  { storedFileName := name
    storedHeaders := headers
    storedRowCount := rowCount
    returnedFileName := name
    returnedRowCount := rowCount }

/-! ### Helper lemmas -/

lemma log2_eq_of_bounds {a k : ℕ} (h1 : 2 ^ k ≤ a) (h2 : a < 2 ^ (k + 1)) :
    Nat.log2 a = k := by
  rw [Nat.log2_eq_log_two]
  exact Nat.log_eq_of_pow_le_of_lt_pow h1 h2

lemma jsMul07_nonneg (n : ℕ) : 0 ≤ jsMul07 n := by
  simp only [jsMul07]
  split
  · exact le_refl 0
  · split
    · positivity
    · positivity

-- The binary64 products the concrete scenarios need, computed exactly.
lemma jsMul07_2 : jsMul07 2 = 6305039478318694 / 4503599627370496 := by
  have hP : 2 * float07Num = 6305039478318694 := by norm_num [float07Num]
  have h : Nat.log2 6305039478318694 = 52 :=
    log2_eq_of_bounds (by norm_num) (by norm_num)
  simp only [jsMul07, hP, h]
  norm_num

lemma jsMul07_4 : jsMul07 4 = 12610078956637388 / 4503599627370496 := by
  have hP : 4 * float07Num = 12610078956637388 := by norm_num [float07Num]
  have h : Nat.log2 12610078956637388 = 53 :=
    log2_eq_of_bounds (by norm_num) (by norm_num)
  simp only [jsMul07, hP, h]
  norm_num

-- At ten present values the tie rounds back up to exactly 7.
lemma jsMul07_10 : jsMul07 10 = 7 := by
  have hP : 10 * float07Num = 31525197391593470 := by norm_num [float07Num]
  have h : Nat.log2 31525197391593470 = 54 :=
    log2_eq_of_bounds (by norm_num) (by norm_num)
  simp only [jsMul07, hP, h]
  norm_num

-- At ninety present values the product rounds below 63.
lemma jsMul07_90 : jsMul07 90 = 283726776524341216 / 4503599627370496 := by
  have hP : 90 * float07Num = 283726776524341230 := by norm_num [float07Num]
  have h : Nat.log2 283726776524341230 = 57 :=
    log2_eq_of_bounds (by norm_num) (by norm_num)
  simp only [jsMul07, hP, h]
  norm_num

lemma columns_getD (headers : List String) (rows : List (List String)) (i : ℕ)
    (h : i < headers.length) (d : ColumnInfo) :
    (analyzeDataStructure headers rows).columns.getD i d
      = analyzeColumn rows rows.length (headers.getD i "") i := by
  have hlen : i < (headers.enum.map
      (fun p => analyzeColumn rows rows.length p.2 p.1)).length := by
    simpa using h
  have hh : i < headers.enum.length := by simpa using h
  unfold analyzeDataStructure
  rw [List.getD_eq_getElem?_getD, List.getElem?_eq_getElem hlen, Option.getD_some,
    List.getElem_map, List.getD_eq_getElem?_getD, List.getElem?_eq_getElem h,
    Option.getD_some]
  congr 1 <;> simp [List.enum]

lemma presentValues_length_le (rows : List (List String)) (i : ℕ) :
    (presentValues rows i).length ≤ rows.length :=
  List.length_filterMap_le _ _

lemma numericValues_length_le (values : List String) :
    (numericValuesOf values).length ≤ values.length :=
  List.length_filterMap_le _ _

/-! ### Claims about `analyzeDataStructure` -/

/-- C5: for every input to `analyzeDataStructure`, ragged rows included,
every produced column satisfies `missingCount + presentCount = totalRows`
and `numericCount <= presentCount`. -/
theorem C5_column_invariants (headers : List String) (rows : List (List String))
    (i : ℕ) (h : i < headers.length) :
    ((analyzeDataStructure headers rows).columns.getD i defaultColumn).missingCount
        + (presentValues rows i).length = rows.length
    ∧ (numericValuesOf (presentValues rows i)).length
        ≤ (presentValues rows i).length := by
  rw [columns_getD headers rows i h]
  refine ⟨?_, numericValues_length_le _⟩
  have hle := presentValues_length_le rows i
  simp only [analyzeColumn]
  omega

/-- C10: every column classified numeric has at least one numeric value
(hence at least one present value), its `statistics` record is attached,
and the values list fed to `calculateStatistics` is never empty, so its
divisions by the list length never divide by zero. -/
theorem C10_numeric_column_safety (headers : List String)
    (rows : List (List String)) (i : ℕ) (h : i < headers.length)
    (hn : ((analyzeDataStructure headers rows).columns.getD i defaultColumn).type
      = "numeric") :
    1 ≤ (numericValuesOf (presentValues rows i)).length
    ∧ 1 ≤ (presentValues rows i).length
    ∧ numericValuesOf (presentValues rows i) ≠ []
    ∧ ((analyzeDataStructure headers rows).columns.getD i defaultColumn).statistics
        = some (calculateStatistics (numericValuesOf (presentValues rows i))) := by
  rw [columns_getD headers rows i h] at hn ⊢
  by_cases hc : ((numericValuesOf (presentValues rows i)).length : ℚ)
      > jsMul07 (presentValues rows i).length
  · have hpos : 0 < (numericValuesOf (presentValues rows i)).length := by
      by_contra hz
      have h0 : (numericValuesOf (presentValues rows i)).length = 0 := by omega
      rw [h0] at hc
      exact absurd (lt_of_le_of_lt (jsMul07_nonneg _) hc) (by norm_num)
    refine ⟨hpos, le_trans hpos (numericValues_length_le _), ?_, ?_⟩
    · intro hnil
      rw [hnil] at hpos
      simp at hpos
    · simp only [analyzeColumn, if_pos hc]
      simp [hpos]
  · exfalso
    simp only [analyzeColumn, if_neg hc] at hn
    exact absurd hn (by decide)

/-- Witness for C10 at a fully numeric two-row column. -/
theorem C10_numeric_column_safety_witness :
    1 ≤ (numericValuesOf (presentValues [["1"], ["2"]] 0)).length
    ∧ 1 ≤ (presentValues [["1"], ["2"]] 0).length
    ∧ numericValuesOf (presentValues [["1"], ["2"]] 0) ≠ []
    ∧ ((analyzeDataStructure ["n"] [["1"], ["2"]]).columns.getD 0
          defaultColumn).statistics
        = some (calculateStatistics (numericValuesOf (presentValues [["1"], ["2"]] 0))) :=
  C10_numeric_column_safety ["n"] [["1"], ["2"]] 0 (by decide) (by
    rw [columns_getD _ _ 0 (by decide)]
    have h1 : (presentValues [["1"], ["2"]] 0).length = 2 := by decide
    have h2 : (numericValuesOf (presentValues [["1"], ["2"]] 0)).length = 2 := by decide
    simp only [analyzeColumn, h1, h2, jsMul07_2]
    rw [if_pos (by norm_num)])

/-- C1 (amended): a column is classified numeric iff its numeric count
exceeds the binary64 product `presentCount * 0.7` (`jsMul07`); the
spec's scenarios hold — 7 numeric of 10 present is categorical, and the
column `["1","2","x","y"]` is categorical — but the exact-70% tie does
not classify as categorical at every size (see `C1_counterexample`). -/
theorem C1_classification_threshold :
    (∀ (headers : List String) (rows : List (List String)) (i : ℕ),
      i < headers.length →
      (((analyzeDataStructure headers rows).columns.getD i defaultColumn).type
          = "numeric"
        ↔ ((numericValuesOf (presentValues rows i)).length : ℚ)
            > jsMul07 (presentValues rows i).length))
    ∧ ((analyzeDataStructure ["value"]
          (List.replicate 7 ["1"] ++ List.replicate 3 ["x"])).columns.getD 0
            defaultColumn).type = "categorical"
    ∧ ((analyzeDataStructure ["value"]
          [["1"], ["2"], ["x"], ["y"]]).columns.getD 0 defaultColumn).type
        = "categorical" := by
  refine ⟨fun headers rows i h => ?_, ?_, ?_⟩
  · rw [columns_getD headers rows i h]
    by_cases hc : ((numericValuesOf (presentValues rows i)).length : ℚ)
        > jsMul07 (presentValues rows i).length
    · simp only [analyzeColumn, if_pos hc]
      exact iff_of_true trivial hc
    · simp only [analyzeColumn, if_neg hc]
      exact iff_of_false (by decide) hc
  · rw [columns_getD _ _ 0 (by decide)]
    have h1 : (presentValues (List.replicate 7 ["1"] ++ List.replicate 3 ["x"]) 0).length
        = 10 := by decide
    have h2 : (numericValuesOf
        (presentValues (List.replicate 7 ["1"] ++ List.replicate 3 ["x"]) 0)).length
        = 7 := by decide
    simp only [analyzeColumn, h1, h2, jsMul07_10]
    rw [if_neg (by norm_num)]
  · rw [columns_getD _ _ 0 (by decide)]
    have h1 : (presentValues [["1"], ["2"], ["x"], ["y"]] 0).length = 4 := by decide
    have h2 : (numericValuesOf (presentValues [["1"], ["2"], ["x"], ["y"]] 0)).length
        = 2 := by decide
    simp only [analyzeColumn, h1, h2, jsMul07_4]
    rw [if_neg (by norm_num)]

/-- C1 (counterexample): a column whose 90 present values are exactly
70% numeric (63 of 90) is classified numeric, because the binary64
product `90 * 0.7` rounds to `62.99999999999999…`, strictly below 63 —
refuting the claim that exactly-70% columns are always categorical. -/
theorem C1_counterexample :
    (presentValues (List.replicate 63 ["1"] ++ List.replicate 27 ["x"]) 0).length = 90
    ∧ (numericValuesOf
        (presentValues (List.replicate 63 ["1"] ++ List.replicate 27 ["x"]) 0)).length
        = 63
    ∧ ((analyzeDataStructure ["value"]
        (List.replicate 63 ["1"] ++ List.replicate 27 ["x"])).columns.getD 0
          defaultColumn).type = "numeric" := by
  refine ⟨by decide, by decide, ?_⟩
  rw [columns_getD _ _ 0 (by decide)]
  have h1 : (presentValues (List.replicate 63 ["1"] ++ List.replicate 27 ["x"]) 0).length
      = 90 := by decide
  have h2 : (numericValuesOf
      (presentValues (List.replicate 63 ["1"] ++ List.replicate 27 ["x"]) 0)).length
      = 63 := by decide
  simp only [analyzeColumn, h1, h2, jsMul07_90]
  rw [if_pos (by norm_num)]

/-- Witness for C1: the general threshold equivalence applied to the
concrete column `["1","2","x","y"]`. -/
theorem C1_classification_threshold_witness :
    ((analyzeDataStructure ["value"] [["1"], ["2"], ["x"], ["y"]]).columns.getD 0
        defaultColumn).type = "numeric"
      ↔ ((numericValuesOf (presentValues [["1"], ["2"], ["x"], ["y"]] 0)).length : ℚ)
          > jsMul07 (presentValues [["1"], ["2"], ["x"], ["y"]] 0).length :=
  C1_classification_threshold.1 ["value"] [["1"], ["2"], ["x"], ["y"]] 0 (by decide)

/-- Witness for C5 at a concrete ragged input. -/
theorem C5_column_invariants_witness :
    ((analyzeDataStructure ["a", "b"] [["1", "2"], ["x"], [" ", "3"]]).columns.getD 1
        defaultColumn).missingCount
      + (presentValues [["1", "2"], ["x"], [" ", "3"]] 1).length = 3
    ∧ (numericValuesOf (presentValues [["1", "2"], ["x"], [" ", "3"]] 1)).length
        ≤ (presentValues [["1", "2"], ["x"], [" ", "3"]] 1).length :=
  C5_column_invariants ["a", "b"] [["1", "2"], ["x"], [" ", "3"]] 1 (by decide)

/-! ### Claims about `calculateStatistics` -/

-- The sorted copy the source builds is the unique ascending permutation.
lemma mergeSort_eq_of_sorted_perm (values sortedL : List ℚ)
    (hperm : sortedL.Perm values) (hsorted : sortedL.Sorted (· ≤ ·)) :
    values.mergeSort = sortedL :=
  List.eq_of_perm_of_sorted ((List.mergeSort_perm values _).trans hperm.symm)
    (List.sorted_mergeSort' values) hsorted

lemma sorted_10_20_30 : ([10, 20, 30] : List ℚ).mergeSort = [10, 20, 30] :=
  List.mergeSort_eq_self (by norm_num [List.sorted_cons])

/-- C3: on any non-empty list, `calculateStatistics` takes the median at
sorted index `floor(n/2)` (no averaging for even `n`), the quartiles at
sorted indices `floor(n*0.25)` and `floor(n*0.75)`, and `iqr = q3 - q1`;
on `[10, 20, 30]` it returns mean 20, min 10, max 30 and median 20. -/
theorem C3_statistics_conventions (values sortedL : List ℚ) (_hne : values ≠ [])
    (hperm : sortedL.Perm values) (hsorted : sortedL.Sorted (· ≤ ·)) :
    ((calculateStatistics values).median = sortedL.getD (values.length / 2) 0
      ∧ (calculateStatistics values).q1 = sortedL.getD (values.length / 4) 0
      ∧ (calculateStatistics values).q3 = sortedL.getD (3 * values.length / 4) 0
      ∧ (calculateStatistics values).iqr
          = (calculateStatistics values).q3 - (calculateStatistics values).q1)
    ∧ ((calculateStatistics [10, 20, 30]).mean = 20
      ∧ (calculateStatistics [10, 20, 30]).min = 10
      ∧ (calculateStatistics [10, 20, 30]).max = 30
      ∧ (calculateStatistics [10, 20, 30]).median = 20) := by
  have hms := mergeSort_eq_of_sorted_perm values sortedL hperm hsorted
  have hlen : sortedL.length = values.length := hperm.length_eq
  constructor
  · refine ⟨?_, ?_, ?_, rfl⟩ <;> simp only [calculateStatistics, hms, hlen]
  · refine ⟨?_, ?_, ?_, ?_⟩ <;>
      simp only [calculateStatistics, sorted_10_20_30, jsMin, jsMax, List.foldl_cons,
        List.foldl_nil, List.length_cons, List.length_nil, List.getD_eq_getElem?_getD]
    · norm_num
    · rw [min_eq_left (by norm_num : (10 : ℚ) ≤ 20), min_eq_left (by norm_num : (10 : ℚ) ≤ 30)]
    · rw [max_eq_right (by norm_num : (10 : ℚ) ≤ 20), max_eq_right (by norm_num : (20 : ℚ) ≤ 30)]
    · norm_num

/-- Witness for C3 at `[10, 20, 30]` with its sorted copy `[10, 20, 30]`. -/
theorem C3_statistics_conventions_witness :
    (calculateStatistics [10, 20, 30]).median
        = ([10, 20, 30] : List ℚ).getD (([10, 20, 30] : List ℚ).length / 2) 0 :=
  (C3_statistics_conventions [10, 20, 30] [10, 20, 30] (by simp)
    (List.Perm.refl _) (by norm_num [List.sorted_cons])).1.1

/-- C4: on any non-empty list of values, the statistics satisfy
`q1 <= median <= q3` and `iqr >= 0`. -/
theorem C4_quartile_order (values : List ℚ) (hne : values ≠ []) :
    (calculateStatistics values).q1 ≤ (calculateStatistics values).median
    ∧ (calculateStatistics values).median ≤ (calculateStatistics values).q3
    ∧ 0 ≤ (calculateStatistics values).iqr := by
  have hlen : values.mergeSort.length = values.length := List.length_mergeSort values
  have hpos : 0 < values.mergeSort.length := by
    rw [hlen]
    exact List.length_pos.mpr hne
  set l := values.mergeSort with hl
  set n := l.length with hn
  have hsorted : l.Sorted (· ≤ ·) := List.sorted_mergeSort' values
  have h12 : n / 4 ≤ n / 2 := by
    rw [show (4 : ℕ) = 2 * 2 from rfl, ← Nat.div_div_eq_div_mul]
    exact Nat.div_le_self _ 2
  have h23 : n / 2 ≤ 3 * n / 4 := by
    have h2 : 2 * n / 4 ≤ 3 * n / 4 := Nat.div_le_div_right (by omega)
    calc n / 2 = 2 * n / (2 * 2) := (Nat.mul_div_mul_left n 2 (by norm_num)).symm
    _ ≤ 3 * n / 4 := h2
  have hi3 : 3 * n / 4 < n := by
    rw [Nat.div_lt_iff_lt_mul (by norm_num : 0 < 4)]
    omega
  have hi2 : n / 2 < n := lt_of_le_of_lt h23 hi3
  have hi1 : n / 4 < n := lt_of_le_of_lt (le_trans h12 h23) hi3
  have hget : ∀ (i j : ℕ) (hi : i < n) (hj : j < n), i ≤ j →
      l.getD i 0 ≤ l.getD j 0 := by
    intro i j hi hj hij
    rw [List.getD_eq_getElem?_getD, List.getElem?_eq_getElem hi, Option.getD_some,
      List.getD_eq_getElem?_getD, List.getElem?_eq_getElem hj, Option.getD_some]
    have := hsorted.rel_get_of_le (a := ⟨i, hi⟩) (b := ⟨j, hj⟩) hij
    simpa using this
  have hq1m : l.getD (n / 4) 0 ≤ l.getD (n / 2) 0 := hget _ _ hi1 hi2 h12
  have hmq3 : l.getD (n / 2) 0 ≤ l.getD (3 * n / 4) 0 := hget _ _ hi2 hi3 h23
  refine ⟨?_, ?_, ?_⟩ <;> simp only [calculateStatistics, ← hl, ← hn]
  · exact hq1m
  · exact hmq3
  · exact sub_nonneg.mpr (le_trans hq1m hmq3)

/-- Witness for C4 at `[10, 20, 30]`. -/
theorem C4_quartile_order_witness :
    (calculateStatistics [10, 20, 30]).q1 ≤ (calculateStatistics [10, 20, 30]).median
    ∧ (calculateStatistics [10, 20, 30]).median ≤ (calculateStatistics [10, 20, 30]).q3
    ∧ 0 ≤ (calculateStatistics [10, 20, 30]).iqr :=
  C4_quartile_order [10, 20, 30] (by simp)

/-! ### Claims about the CSV line parsing and the export endpoint -/

lemma splitOnCharList_no_sep (sep : Char) (p : List Char) (hp : sep ∉ p) :
    splitOnCharList sep p = [p] := by
  induction p with
  | nil => rfl
  | cons c cs ih =>
    have hc : ¬c = sep := fun h => hp (h ▸ List.mem_cons_self c cs)
    have hcs : sep ∉ cs := fun h => hp (List.mem_cons_of_mem _ h)
    unfold splitOnCharList
    rw [if_neg hc, ih hcs]

lemma splitOnCharList_append (sep : Char) (p r : List Char) (hp : sep ∉ p) :
    splitOnCharList sep (p ++ sep :: r) = p :: splitOnCharList sep r := by
  induction p with
  | nil => simp [splitOnCharList]
  | cons c cs ih =>
    have hc : ¬c = sep := fun h => hp (h ▸ List.mem_cons_self c cs)
    have hcs : sep ∉ cs := fun h => hp (List.mem_cons_of_mem _ h)
    rw [List.cons_append]
    simp only [splitOnCharList]
    rw [if_neg hc, ih hcs]

-- Join pieces with a separator character (`lines.join('\n')` shape).
def joinPieces (sep : Char) : List (List Char) → List Char
  | [] => []
  | [p] => p
  | p :: ps => p ++ sep :: joinPieces sep ps

lemma joinChar_eq (sep : Char) (pieces : List String) :
    joinChar sep pieces = ⟨joinPieces sep (pieces.map String.data)⟩ := by
  unfold joinChar
  congr 1
  induction pieces with
  | nil => rfl
  | cons p ps ih =>
    cases ps with
    | nil => simp [joinPieces, List.intercalate]
    | cons q qs =>
      simp only [List.map_cons] at ih ⊢
      rw [show joinPieces sep (p.data :: q.data :: (qs.map String.data))
          = p.data ++ sep :: joinPieces sep (q.data :: (qs.map String.data)) from rfl, ← ih]
      simp [List.intercalate, List.intersperse]

lemma splitOnCharList_joinPieces (sep : Char) (pieces : List (List Char))
    (hne : pieces ≠ []) (h : ∀ p ∈ pieces, sep ∉ p) :
    splitOnCharList sep (joinPieces sep pieces) = pieces := by
  induction pieces with
  | nil => exact absurd rfl hne
  | cons p ps ih =>
    cases ps with
    | nil =>
      exact splitOnCharList_no_sep sep p (h p (List.mem_cons_self _ _))
    | cons q qs =>
      rw [show joinPieces sep (p :: q :: qs) = p ++ sep :: joinPieces sep (q :: qs)
          from rfl]
      rw [splitOnCharList_append sep p _ (h p (List.mem_cons_self _ _))]
      rw [ih (by simp) (fun x hx => h x (List.mem_cons_of_mem _ hx))]

lemma string_mk_data (s : String) : (⟨s.data⟩ : String) = s := rfl

-- The line split of a join of newline-free lines recovers the lines,
-- provided the joined text is invariant under the leading/trailing trim.
lemma parseLines_joinChar (lines : List String) (hne : lines ≠ [])
    (h : ∀ l ∈ lines, '\n' ∉ l.data)
    (ht : jsTrim (joinChar '\n' lines) = joinChar '\n' lines) :
    parseLines (joinChar '\n' lines) = lines := by
  unfold parseLines jsSplit
  rw [ht, joinChar_eq]
  rw [show (⟨joinPieces '\n' (lines.map String.data)⟩ : String).data
      = joinPieces '\n' (lines.map String.data) from rfl]
  rw [splitOnCharList_joinPieces '\n' (lines.map String.data)
    (by simpa using hne) (by simpa using h)]
  rw [List.map_map]
  have hid : ((fun l => (⟨l⟩ : String)) ∘ String.data) = id := funext fun s => rfl
  rw [hid, List.map_id]

/-- C7 (amended): for CSV text formed of a header line and `k` data
lines none of which contains a newline, provided the whole text is
invariant under the leading/trailing whitespace trim, parsing yields a
data-row count of `k` and a header list whose length is the comma-split
length of the header line; the spec's scenario holds.  (Without the
trim-invariance proviso the count claim fails: see
`C7_counterexample`.) -/
theorem C7_parse_counts (header : String) (dataLines : List String)
    (hh : '\n' ∉ header.data) (hd : ∀ l ∈ dataLines, '\n' ∉ l.data)
    (ht : jsTrim (joinChar '\n' (header :: dataLines))
      = joinChar '\n' (header :: dataLines)) :
    (rowCountOf (joinChar '\n' (header :: dataLines)) = dataLines.length
      ∧ (headersOf (joinChar '\n' (header :: dataLines))).length
          = (jsSplit ',' header).length)
    ∧ (headersOf "name,age,city\nJohn,30,Tokyo\nJane,25,Osaka"
          = ["name", "age", "city"]
      ∧ rowCountOf "name,age,city\nJohn,30,Tokyo\nJane,25,Osaka" = 2) := by
  have hp : parseLines (joinChar '\n' (header :: dataLines)) = header :: dataLines :=
    parseLines_joinChar (header :: dataLines) (by simp)
      (by intro l hl; rcases List.mem_cons.mp hl with h | h
          · exact h ▸ hh
          · exact hd l h) ht
  refine ⟨⟨?_, ?_⟩, by decide, by decide⟩
  · unfold rowCountOf
    rw [hp]
    simp
  · unfold headersOf
    rw [hp]
    simp

/-- C7 (counterexample): the text whose header line is `name,age,city`
and whose two data lines are `John,30,Tokyo` and a single space is
parsed with a data-row count of 1, not 2 — the trailing whitespace-only
line is removed by the trim before the newline split. -/
theorem C7_counterexample :
    joinChar '\n' ["name,age,city", "John,30,Tokyo", " "]
        = "name,age,city\nJohn,30,Tokyo\n "
    ∧ rowCountOf "name,age,city\nJohn,30,Tokyo\n " = 1
    ∧ rowCountOf "name,age,city\nJohn,30,Tokyo\n " ≠ 2 :=
  ⟨by decide, by decide, by decide⟩

/-- Witness for C7 at the spec's scenario text. -/
theorem C7_parse_counts_witness :
    (rowCountOf (joinChar '\n' ["name,age,city", "John,30,Tokyo", "Jane,25,Osaka"]) = 2
      ∧ (headersOf (joinChar '\n' ["name,age,city", "John,30,Tokyo", "Jane,25,Osaka"])).length
          = (jsSplit ',' "name,age,city").length)
    ∧ (headersOf "name,age,city\nJohn,30,Tokyo\nJane,25,Osaka" = ["name", "age", "city"]
      ∧ rowCountOf "name,age,city\nJohn,30,Tokyo\nJane,25,Osaka" = 2) :=
  C7_parse_counts "name,age,city" ["John,30,Tokyo", "Jane,25,Osaka"]
    (by decide) (by decide) (by decide)

/-- C8: the export endpoint stores and returns a row count equal to
`cleanedCsv.trim().split('\n').length - 1`. -/
theorem C8_export_rowcount (cleanedCsv originalFileName : String)
    (newFileName : Option String) :
    (exportAsDataset cleanedCsv originalFileName newFileName).storedRowCount
        = (jsSplit '\n' (jsTrim cleanedCsv)).length - 1
    ∧ (exportAsDataset cleanedCsv originalFileName newFileName).returnedRowCount
        = (jsSplit '\n' (jsTrim cleanedCsv)).length - 1 :=
  ⟨rfl, rfl⟩

/-- C9: an absent or empty caller-supplied file name falls back to
`cleaned_` prepended to the original file name; a non-empty name is
used exactly, both in the stored dataset and in the response. -/
theorem C9_export_filename (cleanedCsv originalFileName : String) :
    ((exportAsDataset cleanedCsv originalFileName none).storedFileName
          = "cleaned_" ++ originalFileName
      ∧ (exportAsDataset cleanedCsv originalFileName none).returnedFileName
          = "cleaned_" ++ originalFileName)
    ∧ ((exportAsDataset cleanedCsv originalFileName (some "")).storedFileName
          = "cleaned_" ++ originalFileName
      ∧ (exportAsDataset cleanedCsv originalFileName (some "")).returnedFileName
          = "cleaned_" ++ originalFileName)
    ∧ ∀ s : String, s ≠ "" →
        (exportAsDataset cleanedCsv originalFileName (some s)).storedFileName = s
        ∧ (exportAsDataset cleanedCsv originalFileName (some s)).returnedFileName = s := by
  refine ⟨⟨rfl, rfl⟩, ⟨rfl, rfl⟩, fun s hs => ?_⟩
  simp only [exportAsDataset]
  rw [if_neg hs]
  exact ⟨rfl, rfl⟩

/-- Witness for C9 at concrete file names. -/
theorem C9_export_filename_witness :
    (exportAsDataset "a,b\n1,2" "data.csv" (some "custom.csv")).storedFileName
        = "custom.csv"
    ∧ (exportAsDataset "a,b\n1,2" "data.csv" (some "custom.csv")).returnedFileName
        = "custom.csv" :=
  (C9_export_filename "a,b\n1,2" "data.csv").2.2 "custom.csv" (by decide)

/-! ### Claims about the LLM response handling -/

/-- C2 (amended): when the LLM response is valid JSON without an
`insights` field (JSON `null` aside, whose property access throws), the
generate operation does not fail: it substitutes the empty array, writes
no Insight rows — the prior rows stay deleted — and reports success with
count 0.  Only absent content and JSON parse failures surface the
terminal `Failed to generate insights` error. -/
theorem C2_missing_field_reports_success :
    (∀ j : Json, j ≠ Json.null → j.lookup "insights" = none →
        insightsGenerate (.parsed j) = ([], .ok 0))
    ∧ insightsGenerate .empty = ([], .error "Failed to generate insights")
    ∧ insightsGenerate .invalid = ([], .error "Failed to generate insights") := by
  refine ⟨fun j hj hl => ?_, rfl, rfl⟩
  have ha : insightsArr j = .ok [] := by
    cases j with
    | null => exact absurd rfl hj
    | bool b => rfl
    | num q => rfl
    | str s => rfl
    | arr elems => rfl
    | obj fields => simp [insightsArr, hl]
  simp [insightsGenerate, ha]

/-- C2 (counterexample): a valid JSON object response lacking the
`insights` field makes `insights.generate` return success with count 0
and leave zero Insight rows stored — not the terminal failure the claim
requires. -/
theorem C2_counterexample :
    (Json.obj [("analysis", Json.str "no array here")]).lookup "insights" = none
    ∧ insightsGenerate (.parsed (.obj [("analysis", Json.str "no array here")]))
        = ([], .ok 0) :=
  ⟨rfl, rfl⟩

/-- Witness for C2 at a concrete field-free JSON object. -/
theorem C2_missing_field_reports_success_witness :
    insightsGenerate (.parsed (.obj [("summary", Json.str "done")])) = ([], .ok 0) :=
  C2_missing_field_reports_success.1 (.obj [("summary", Json.str "done")])
    (fun h => Json.noConfusion h) rfl

/-- C6 (amended): empty LLM content and JSON parse failure are hard
failures of `cleaning.clean` (each with its dedicated user-facing
message), and no CleaningResult is stored in those cases; but a valid
JSON response missing the required top-level fields is not a failure —
every field independently falls back to its default and a
CleaningResult built from those defaults is persisted. -/
theorem C6_cleaning_failure_modes (headers : List String) (csvContent now : String) :
    cleaningClean headers csvContent .empty now
        = .error "Empty response from AI. Please try again later."
    ∧ cleaningClean headers csvContent .invalid now
        = .error "Failed to parse AI response. Please try again."
    ∧ cleaningClean headers csvContent (.parsed (.obj [])) now
        = .ok { originalCsv := csvContent
                cleanedCsv := joinChar '\n' (joinChar ',' headers ::
                  ((cleanRows csvContent).take 20).map (joinChar ','))
                report :=
                  { changes := .arr []
                    summary := .obj [("totalChanges", .num 0), ("qualityScore", .num 100)]
                    originalStats := cleaningDataAnalysis headers (cleanRows csvContent)
                    timestamp := now } } :=
  ⟨rfl, rfl, rfl⟩

/-- C6 (counterexample): the valid JSON response `{}` — missing all four
required top-level fields — is not treated as a failure:
`cleaning.clean` persists a CleaningResult whose cleaned CSV is rebuilt
from the defaults (the input headers and first rows unchanged). -/
theorem C6_counterexample :
    cleaningClean ["name", "age"] "name,age\nJohn,30"
        (.parsed (.obj [])) "2024-01-01T00:00:00.000Z"
      = .ok { originalCsv := "name,age\nJohn,30"
              cleanedCsv := "name,age\nJohn,30"
              report :=
                { changes := .arr []
                  summary := .obj [("totalChanges", .num 0), ("qualityScore", .num 100)]
                  originalStats :=
                    { totalRows := 1, totalColumns := 2
                      emptyValues := 0, duplicateRows := 0 }
                  timestamp := "2024-01-01T00:00:00.000Z" } } := rfl

end CsvInsights
